import Mathlib

/-!
Verification development for the multi_agent_planner repository.

Shallow embedding of the sandboxed-execution core (src/core/sandbox.py), the
feedback-driven retry loop (src/core/orchestrator.py, develop_with_retry), the
retry/backoff engine (src/core/retry.py) and the QA evaluation step
(src/agents/qa.py), together with theorems settling the stated properties.

External effects (actually running artifact code in-process, spawning a child
process or container, LLM calls) are modelled as oracle parameters; the pure
control flow, string pattern checks and result construction are translated
directly from the Python source.  Machine floats for delays and elapsed times
are modelled as rationals.  String literals from the source are reproduced
verbatim except that single-quote characters inside messages are elided.
-/

namespace MultiAgentPlanner

/-- Python substring containment, as in the expression p in s on str values. -/
def substrB (p s : String) : Bool :=
  s.data.tails.any (fun t => p.data.isPrefixOf t)

/-- Python str.lower for the ASCII strings the code compares. -/
def lowerStr (s : String) : String :=
  ⟨s.data.map Char.toLower⟩

/-- Python slicing s[:n] on a str: keep at most n characters. -/
def strTake (s : String) (n : Nat) : String :=
  ⟨s.data.take n⟩

/-! ## Sandbox data model (src/core/sandbox.py) -/

/-- Enum ExecutionMethod from sandbox.py. -/
inductive ExecutionMethod where
  | restricted
  | docker
  | subprocess
deriving DecidableEq, Repr

/-- Dataclass SandboxConfig from sandbox.py (defaults as in the source). -/
structure SandboxConfig where
  method : ExecutionMethod
  timeout : Nat
  max_memory_mb : Nat
  max_output_size : Nat
  allowed_imports : List String
  docker_image : String
deriving DecidableEq, Repr

/-- Default allowed_imports list of SandboxConfig. -/
def defaultAllowedImports : List String :=
  ["math", "random", "datetime", "json", "re", "collections",
   "itertools", "functools", "string", "csv", "io", "statistics",
   "uuid", "dataclasses", "typing", "enum", "pathlib",
   "abc", "copy", "operator", "contextlib",
   "heapq", "bisect", "array",
   "textwrap", "difflib",
   "unittest", "doctest"]

/-- SandboxConfig with every field at its dataclass default. -/
def sandboxDefault : SandboxConfig :=
  { method := ExecutionMethod.restricted
    timeout := 30
    max_memory_mb := 256
    max_output_size := 10000
    allowed_imports := defaultAllowedImports
    docker_image := "python:3.11-slim" }

/-- Dataclass ExecutionResult from sandbox.py. execution_time is an optional
rational (None on paths where the source never sets it). -/
structure ExecutionResult where
  success : Bool
  output : String
  error : Option String
  execution_time : Option ℚ
  method_used : String
deriving DecidableEq, Repr

/-- Outcome of actually running code in-process via exec under the restricted
globals: either normal completion or a raised exception (name, message,
partial stdout), with elapsed wall-clock time.  Oracle for the environment. -/
inductive PyRun where
  | ok (out : String) (elapsed : ℚ)
  | raises (excName excMsg : String) (partialOut : String) (elapsed : ℚ)
deriving DecidableEq, Repr

/-- Outcome of a subprocess.run invocation of the artifact (child process or
docker container): completion with return code, stdout, stderr and elapsed
time, or a raised subprocess.TimeoutExpired.  Oracle for the environment. -/
inductive ProcRun where
  | completed (returncode : Int) (stdout stderr : String) (elapsed : ℚ)
  | timedOut
deriving DecidableEq, Repr

/-- The dangerous_patterns list checked in execute_restricted (pattern,
reason), in source order. -/
def dangerous_patterns : List (String × String) :=
  [("os.system", "System command execution"),
   ("subprocess.", "Subprocess execution"),
   ("Popen", "Process spawning"),
   ("__subclasses__", "Class introspection attack"),
   ("__globals__", "Global namespace access"),
   ("__code__", "Code object manipulation"),
   ("__reduce__", "Pickle exploit"),
   ("execfile", "File execution"),
   ("reload", "Module reload")]

/-- First dangerous pattern matching the code, as the for loop over
dangerous_patterns in execute_restricted finds it (first match wins). -/
def firstDangerous (code : String) : Option (String × String) :=
  dangerous_patterns.find? (fun p => substrB p.1 code)

/-- The needs_subprocess marker check in execute_restricted: GUI, interactive
or eval-bearing code falls back to subprocess execution. -/
def needs_subprocess (code : String) : Bool :=
  ["input(", "eval(", "tkinter", "tk.", "mainloop"].any (fun p => substrB p code)

/-- The mainloop-detection check in execute_subprocess. -/
def mainloop_skip (code : String) : Bool :=
  ["mainloop()", ".mainloop()"].any (fun p => substrB p code)

/-- Fixed notice returned by the input() skip path of execute_subprocess. -/
def interactiveSkipMsg : String :=
  "Interactive code detected (input()) - skipping execution. Code syntax is valid."

/-- Fixed notice returned by the GUI-mainloop skip path of execute_subprocess. -/
def guiSkipMsg : String :=
  "GUI mainloop detected - skipping execution. Code syntax is valid."

/-- Timeout error message produced by the subprocess and docker backends. -/
def timeoutMsg (timeout : Nat) : String :=
  "Execution timed out after " ++ toString timeout ++ " seconds"

/-- Embedding of execute_subprocess.  The returned Bool instruments whether
the artifact code was actually handed to the child process (true) or the
call returned without executing it (false, the skip paths). -/
def execute_subprocess (run : ProcRun) (code : String) (config : SandboxConfig) :
    ExecutionResult × Bool :=
  if substrB "input(" code then
    ({ success := true
       output := interactiveSkipMsg
       error := none
       execution_time := some 0
       method_used := "subprocess_skip" }, false)
  else if mainloop_skip code then
    ({ success := true
       output := guiSkipMsg
       error := none
       execution_time := some 0
       method_used := "subprocess_skip" }, false)
  else
    match run with
    | ProcRun.timedOut =>
      ({ success := false
         output := ""
         error := some (timeoutMsg config.timeout)
         execution_time := none
         method_used := "subprocess" }, true)
    | ProcRun.completed rc out err t =>
      if rc == 0 then
        ({ success := true
           output := strTake out config.max_output_size
           error := none
           execution_time := some t
           method_used := "subprocess" }, true)
      else
        ({ success := false
           output := strTake out config.max_output_size
           error := some (strTake err config.max_output_size)
           execution_time := some t
           method_used := "subprocess" }, true)

/-- Embedding of execute_docker.  dockerAvailable models the docker info
probe; run models the docker run invocation.  The Bool instruments whether
the artifact was handed to a container. -/
def execute_docker (dockerAvailable : Bool) (run : ProcRun) (code : String)
    (config : SandboxConfig) : ExecutionResult × Bool :=
  if !dockerAvailable then
    ({ success := false
       output := ""
       error := some "Docker is not available. Install Docker or use restricted method."
       execution_time := none
       method_used := "docker" }, false)
  else
    match run with
    | ProcRun.timedOut =>
      ({ success := false
         output := ""
         error := some (timeoutMsg config.timeout)
         execution_time := none
         method_used := "docker" }, true)
    | ProcRun.completed rc out err t =>
      if rc == 0 then
        ({ success := true
           output := strTake out config.max_output_size
           error := none
           execution_time := some t
           method_used := "docker" }, true)
      else
        ({ success := false
           output := strTake out config.max_output_size
           error := some (strTake err config.max_output_size)
           execution_time := some t
           method_used := "docker" }, true)

/-- Embedding of execute_restricted: dangerous-pattern rejection first, then
the needs_subprocess fallback, then in-process exec (oracle pyRun).  The Bool
instruments whether the artifact code was actually executed anywhere. -/
def execute_restricted (pyRun : PyRun) (subRun : ProcRun) (code : String)
    (config : SandboxConfig) : ExecutionResult × Bool :=
  match firstDangerous code with
  | some pr =>
    ({ success := false
       output := ""
       error := some ("Security violation: " ++ pr.2 ++ " (" ++ pr.1 ++ " is not allowed)")
       execution_time := none
       method_used := "restricted" }, false)
  | none =>
    if needs_subprocess code then
      execute_subprocess subRun code config
    else
      match pyRun with
      | PyRun.ok out t =>
        ({ success := true
           output := strTake out config.max_output_size
           error := none
           execution_time := some t
           method_used := "restricted" }, true)
      | PyRun.raises n m po t =>
        ({ success := false
           output := strTake po config.max_output_size
           error := some (n ++ ": " ++ m)
           execution_time := some t
           method_used := "restricted" }, true)

/-- Bundle of environment oracles for one execute_code_safely call. -/
structure World where
  pyRun : PyRun
  subRun : ProcRun
  dockerAvailable : Bool
  dockerRun : ProcRun
deriving DecidableEq, Repr

/-- Embedding of execute_code_safely: builds a SandboxConfig (max_output_size
and allowed_imports always at their defaults) and dispatches to the selected
backend.  The Bool instruments whether the artifact code was executed. -/
def execute_code_safely (w : World) (code : String) (method : ExecutionMethod)
    (timeout : Nat) (max_memory_mb : Nat) : ExecutionResult × Bool :=
  let config : SandboxConfig :=
    { sandboxDefault with method := method, timeout := timeout, max_memory_mb := max_memory_mb }
  match method with
  | ExecutionMethod.restricted => execute_restricted w.pyRun w.subRun code config
  | ExecutionMethod.docker => execute_docker w.dockerAvailable w.dockerRun code config
  | ExecutionMethod.subprocess => execute_subprocess w.subRun code config

/-! ## Developer execution wrapper (src/agents/developer.py, _execute_code) -/

/-- Return dict of DeveloperAgent execute_code (the source name carries a
leading underscore). -/
structure DevExecResult where
  output : String
  passed : Bool
  error : Option String
  method : String
deriving DecidableEq, Repr

/-- The mainloop-detection list in DeveloperAgent execute_code. -/
def dev_mainloop_skip (code : String) : Bool :=
  ["mainloop()", "tk.mainloop", ".mainloop()"].any (fun p => substrB p code)

/-- Embedding of DeveloperAgent execute_code: syntax pre-check (parseErr is
the oracle for compile(code), none when the code parses), GUI skip, then
execute_code_safely with the agent sandbox method and timeout 30. -/
def dev_execute_code (parseErr : Option (Nat × String)) (w : World)
    (sandbox_method : ExecutionMethod) (code : String) : DevExecResult :=
  match parseErr with
  | some lm =>
    { output := ""
      passed := false
      error := some ("Syntax error at line " ++ toString lm.1 ++ ": " ++ lm.2)
      method := "syntax_check" }
  | none =>
    if dev_mainloop_skip code then
      { output := "GUI code - skipping execution (mainloop detected)"
        passed := true
        error := none
        method := "gui_skip" }
    else
      let r := (execute_code_safely w code sandbox_method 30 256).1
      { output := r.output
        passed := r.success
        error := r.error
        method := r.method_used }

/-! ## Feedback-driven retry loop (src/core/orchestrator.py, develop_with_retry) -/

/-- The fields of the qa_checker.evaluate_code dict that develop_with_retry
reads: status and result. -/
structure QAResult where
  status : String
  result : String
deriving DecidableEq, Repr

/-- Observable outcome of develop_with_retry, instrumented with the number of
developer.develop calls (devCalls) and critic.review calls (criticCalls). -/
structure RetryOutcome where
  code : Option String
  qa_result : Option QAResult
  critique : String
  attempts : Nat
  passed : Bool
  devCalls : Nat
  criticCalls : Nat
deriving DecidableEq, Repr

/-- Body of the for-attempt loop of develop_with_retry, one recursive call per
iteration.  dev, qa and critic are oracles indexed by the attempt number
(dev i is the code developer.develop produced on attempt i, qa i the QA dict
for it, critic i the critique text).  best carries best_code and
best_qa_result; fuel is max_retries minus the current attempt index. -/
def developAux (dev : Nat → String) (qa : Nat → QAResult) (critic : Nat → String)
    (max_retries : Nat) (best : Option (String × QAResult)) (critique : String)
    (criticCalls : Nat) (attempt : Nat) (fuel : Nat) : RetryOutcome :=
  match fuel with
  | 0 =>
    { code := best.map Prod.fst
      qa_result := best.map Prod.snd
      critique := critique
      attempts := max_retries
      passed := false
      devCalls := attempt
      criticCalls := criticCalls }
  | fuel' + 1 =>
    let code := dev attempt
    let qa_result := qa attempt
    let passed := qa_result.status == "passed"
    let best' := if best.isNone || passed then some (code, qa_result) else best
    if passed then
      { code := some code
        qa_result := some qa_result
        critique := ""
        attempts := attempt + 1
        passed := true
        devCalls := attempt + 1
        criticCalls := criticCalls }
    else
      if attempt < max_retries - 1 then
        developAux dev qa critic max_retries best' (critic attempt)
          (criticCalls + 1) (attempt + 1) fuel'
      else
        developAux dev qa critic max_retries best' critique
          criticCalls (attempt + 1) fuel'

/-- Embedding of develop_with_retry: run the loop from attempt 0 with empty
best attempt and critique. -/
def develop_with_retry (dev : Nat → String) (qa : Nat → QAResult)
    (critic : Nat → String) (max_retries : Nat) : RetryOutcome :=
  developAux dev qa critic max_retries none "" 0 0 max_retries

/-! ## Retry/backoff engine (src/core/retry.py) -/

/-- Dataclass RetryConfig from retry.py; delays are rationals. -/
structure RetryConfig where
  max_retries : Nat
  base_delay : ℚ
  max_delay : ℚ
  exponential_base : ℚ
  jitter : Bool
  jitter_factor : ℚ
  retryable_exceptions : List String
  retryable_messages : List String
deriving DecidableEq, Repr

/-- RetryConfig default field values from the source. -/
def retryDefault : RetryConfig :=
  { max_retries := 3
    base_delay := 1
    max_delay := 60
    exponential_base := 2
    jitter := true
    jitter_factor := 1 / 10
    retryable_exceptions := ["ConnectionError", "TimeoutError", "OSError"]
    retryable_messages :=
      ["rate limit", "too many requests", "service unavailable", "timeout",
       "connection reset", "internal server error", "502", "503", "504", "529"] }

/-- Embedding of calculate_delay.  u models the unit sample of
random.uniform, so the jitter term delay * jitter_factor * u spans the
uniform(-range, range) perturbation of the source. -/
def calculate_delay (attempt : Nat) (config : RetryConfig) (u : ℚ) : ℚ :=
  let d := config.base_delay * config.exponential_base ^ attempt
  let d := min d config.max_delay
  let d := if config.jitter then d + d * config.jitter_factor * u else d
  max 0 d

/-- A Python exception as the retry engine observes it: the class names it is
an instance of (isinstance closure) and its str() message. -/
structure Exc where
  types : List String
  msg : String
deriving DecidableEq, Repr

/-- Embedding of should_retry: retryable exception type, or a transient-error
marker contained in the lowercased message. -/
def should_retry (e : Exc) (config : RetryConfig) : Bool :=
  config.retryable_exceptions.any (fun t => e.types.contains t) ||
  config.retryable_messages.any (fun p => substrB (lowerStr p) (lowerStr e.msg))

/-- Body of the for-attempt loop shared by the retry_with_backoff wrapper,
RetryContext.execute and retry_llm_call: call the operation (oracle f, one
outcome per call index), return on success, re-raise when attempts are
exhausted or the exception is not retryable, otherwise sleep and loop.
Returns the propagated outcome and the number of operation calls made.
fuel is max_retries + 1 minus the current attempt index; the fuel-0 case is
the unreachable trailing RuntimeError of the source. -/
def retryAux {T : Type} (f : Nat → Except Exc T) (config : RetryConfig)
    (max_retries : Nat) (attempt : Nat) (fuel : Nat) : Except Exc T × Nat :=
  match fuel with
  | 0 => (Except.error { types := ["RuntimeError"], msg := "Unexpected retry loop exit" }, attempt)
  | fuel' + 1 =>
    match f attempt with
    | Except.ok v => (Except.ok v, attempt + 1)
    | Except.error e =>
      if max_retries ≤ attempt then (Except.error e, attempt + 1)
      else if !should_retry e config then (Except.error e, attempt + 1)
      else retryAux f config max_retries (attempt + 1) fuel'

/-- Embedding of the wrapper produced by retry_with_backoff (and of
RetryContext.execute, which has the same control flow): range(max_retries+1)
attempts from index 0. -/
def retry_with_backoff {T : Type} (f : Nat → Except Exc T) (config : RetryConfig)
    (max_retries : Nat) : Except Exc T × Nat :=
  retryAux f config max_retries 0 (max_retries + 1)

/-- The RetryConfig that retry_llm_call builds. -/
def llmRetryConfig (max_retries : Nat) : RetryConfig :=
  { retryDefault with
    max_retries := max_retries
    base_delay := 1
    max_delay := 30
    retryable_messages :=
      ["rate limit", "rate_limit", "ratelimit",
       "too many requests", "429",
       "service unavailable", "503",
       "timeout", "timed out",
       "connection", "network",
       "internal server error", "500",
       "bad gateway", "502",
       "gateway timeout", "504",
       "overloaded", "capacity"] }

/-- Embedding of retry_llm_call: same loop under the LLM-specific config. -/
def retry_llm_call {T : Type} (f : Nat → Except Exc T) (max_retries : Nat) :
    Except Exc T × Nat :=
  retryAux f (llmRetryConfig max_retries) max_retries 0 (max_retries + 1)

/-! ## QA evaluation (src/agents/qa.py) -/

/-- The code_result dict passed to QAAgent.evaluate_code when it is a dict:
optional status, result and code entries. -/
structure CodeDict where
  status : Option String
  result : Option String
  code : Option String
deriving DecidableEq, Repr

/-- The evaluate_code argument: a dict from the developer or a plain string. -/
inductive CodeResult where
  | dict (d : CodeDict)
  | str (s : String)
deriving DecidableEq, Repr

/-- Return dict of evaluate_code: status, optional result entry (the LLM
fallback emits no result key) and critique. -/
structure QAEvalResult where
  status : String
  result : Option String
  critique : String
deriving DecidableEq, Repr

/-- Embedding of QAAgent get_critique (leading underscore in the source). -/
def get_critique (d : CodeDict) : String :=
  if substrB "Error:" ((d.result).getD "") ||
      substrB "error:" (lowerStr ((d.result).getD "")) then
    (d.result).getD ""
  else
    "Code execution failed. Output: " ++ strTake ((d.result).getD "") 500

/-- Embedding of QAAgent.evaluate_code.  llm is the oracle for the
_llm_static_analysis fallback (LLM call plus caching), keyed by the code
string it receives.  The Bool instruments whether that fallback ran. -/
def evaluate_code (llm : String → QAEvalResult) (code_result : CodeResult) :
    QAEvalResult × Bool :=
  match code_result with
  | CodeResult.dict d =>
    match d.status with
    | some st =>
      if st = "passed" ∨ st = "failed" then
        ({ status := st
           result := some ((d.result).getD "")
           critique := if st = "failed" then get_critique d else "" }, false)
      else
        (llm ((d.code).getD ""), true)
    | none => (llm ((d.code).getD ""), true)
  | CodeResult.str s => (llm s, true)

/-! ## Concrete oracles for evaluations -/

/-- Developer oracle producing distinct code on attempts 0 and 1. -/
def wDev : Nat → String :=
  fun i => if i == 0 then "A" else "B"

/-- QA oracle that passes every attempt. -/
def wQaPass : Nat → QAResult :=
  fun _ => { status := "passed", result := "ok" }

/-- QA oracle that fails every attempt. -/
def wQaFail : Nat → QAResult :=
  fun _ => { status := "failed", result := "r" }

/-- Critic oracle with a constant critique. -/
def wCritic : Nat → String :=
  fun _ => "needs work"

/-- Bundle of concrete environment oracles used by concrete evaluations. -/
def w0 : World :=
  { pyRun := PyRun.ok "" 0
    subRun := ProcRun.completed 0 "" "" 0
    dockerAvailable := true
    dockerRun := ProcRun.completed 0 "" "" 0 }

/-- SandboxConfig with max_output_size 10, used to exhibit the untruncated skip
notice. -/
def sandboxSmall : SandboxConfig :=
  { sandboxDefault with max_output_size := 10 }

/-- RetryConfig with jitter disabled and every other field at its default. -/
def retryNoJitter : RetryConfig :=
  { retryDefault with jitter := false }

/-- A ValueError with a non-transient message: not retryable under the
default policy. -/
def excFatal : Exc :=
  { types := ["ValueError"], msg := "boom" }

/-- A ConnectionError: retryable by exception type. -/
def excTransient : Exc :=
  { types := ["ConnectionError", "OSError"], msg := "connection reset by peer" }

/-- An LLM-fallback oracle used only by concrete evaluations. -/
def llmStub : String → QAEvalResult :=
  fun _ => { status := "failed", result := none, critique := "llm" }

/-- A dict carrying a passed sandbox verdict. -/
def passedDict : CodeDict :=
  { status := some "passed", result := some "ok", code := none }

/-- A dict carrying a failed sandbox verdict. -/
def failedDict : CodeDict :=
  { status := some "failed", result := some "it broke", code := none }

/-! ## Helper lemmas -/

theorem strTake_length_le (s : String) (n : Nat) : (strTake s n).length ≤ n := by
  show (s.data.take n).length ≤ n
  rw [List.length_take]
  exact min_le_left _ _

theorem substrB_empty_right (p : String) (hp : p ≠ "") : substrB p "" = false := by
  cases p with
  | mk data =>
    cases data with
    | nil => simp at hp
    | cons c cs => rfl

theorem append_ne_empty_left (s t : String) (hs : s.length ≠ 0) : s ++ t ≠ "" := by
  intro h
  apply hs
  have h2 := congrArg String.length h
  rw [String.length_append] at h2
  have h0 : String.length "" = 0 := rfl
  omega

/-! ## C1: safety filter versus backend dispatch -/

/-- C1 counterexample: the artifact os.system(x) is rejected by the safety
filter (it matches the first forbidden-capability pattern), yet selecting the
subprocess method through execute_code_safely hands the code to the
subprocess backend and executes it: the safety check does not run before
every selectable method. -/
theorem safety_filter_bypass_counterexample :
    firstDangerous "os.system(x)" = some ("os.system", "System command execution") ∧
    (execute_code_safely w0 "os.system(x)" ExecutionMethod.subprocess 30 256).2 = true ∧
    (execute_code_safely w0 "os.system(x)" ExecutionMethod.docker 30 256).2 = true := by
  decide

/-- C1 amended: only under the restricted method does the safety filter run
before execution; an artifact matching a forbidden-capability pattern is then
rejected with a security-violation result and its code is never executed —
the result is independent of both execution oracles. -/
theorem restricted_blocks_forbidden (code : String) (cfg : SandboxConfig)
    (py : PyRun) (sub : ProcRun) (pr : String × String)
    (h : firstDangerous code = some pr) :
    execute_restricted py sub code cfg =
      ({ success := false
         output := ""
         error := some ("Security violation: " ++ pr.2 ++ " (" ++ pr.1 ++ " is not allowed)")
         execution_time := none
         method_used := "restricted" }, false) := by
  unfold execute_restricted
  rw [h]

/-- C1 witness: the amended theorem evaluated on the os.system artifact. -/
theorem restricted_blocks_forbidden_witness :
    execute_restricted (PyRun.ok "" 0) (ProcRun.completed 0 "" "" 0) "os.system(x)"
        sandboxDefault =
      ({ success := false
         output := ""
         error := some ("Security violation: " ++ "System command execution" ++ " (" ++
           "os.system" ++ " is not allowed)")
         execution_time := none
         method_used := "restricted" }, false) :=
  restricted_blocks_forbidden "os.system(x)" sandboxDefault (PyRun.ok "" 0)
    (ProcRun.completed 0 "" "" 0) ("os.system", "System command execution") (by decide)

/-! ## C4: timeout outcomes -/

/-- C4 counterexample: on a timeout the subprocess backend returns
execution_time = none — no elapsed time is reported, contradicting the claim
that the elapsed execution_time is reported and at least the timeout. -/
theorem timeout_time_counterexample :
    (execute_subprocess ProcRun.timedOut "print(1)" sandboxDefault).1.execution_time = none ∧
    (execute_docker true ProcRun.timedOut "print(1)" sandboxDefault).1.execution_time = none := by
  decide

/-- C4 amended: on a timeout, the subprocess and docker backends return
success = false with the dedicated timeout message (distinct from the
runtime-exception path, which reports captured stderr), but execution_time
is none: no elapsed time is reported on the timeout path. -/
theorem timeout_outcome (code : String) (cfg : SandboxConfig)
    (h1 : substrB "input(" code = false) (h2 : mainloop_skip code = false) :
    (execute_subprocess ProcRun.timedOut code cfg).1 =
      { success := false
        output := ""
        error := some (timeoutMsg cfg.timeout)
        execution_time := none
        method_used := "subprocess" } ∧
    (execute_docker true ProcRun.timedOut code cfg).1 =
      { success := false
        output := ""
        error := some (timeoutMsg cfg.timeout)
        execution_time := none
        method_used := "docker" } := by
  constructor
  · unfold execute_subprocess
    rw [h1, h2]
    rfl
  · rfl

/-- C4 witness: the amended theorem evaluated on a concrete artifact. -/
theorem timeout_outcome_witness :
    (execute_subprocess ProcRun.timedOut "print(1)" sandboxDefault).1 =
      { success := false
        output := ""
        error := some (timeoutMsg 30)
        execution_time := none
        method_used := "subprocess" } :=
  (timeout_outcome "print(1)" sandboxDefault (by decide) (by decide)).1

/-! ## C5: interactive-input artifacts -/

/-- C5 counterexample: an artifact calling input() is reported as a success,
not an execution-class failure: the subprocess backend returns
success = true on its skip path, and the developer execution wrapper reports
passed = true for the same artifact under the default restricted method. -/
theorem input_success_counterexample :
    (execute_subprocess (ProcRun.completed 0 "" "" 0) "input()" sandboxDefault).1.success
      = true ∧
    (dev_execute_code none w0 ExecutionMethod.restricted "input()").passed = true := by
  decide

/-- C5 amended: every artifact containing an interactive-input construct is
skipped by the subprocess backend without being executed, and the outcome is
reported as success = true with method subprocess_skip and a fixed notice —
a skipped success, not an execution-class failure. -/
theorem input_skip (code : String) (cfg : SandboxConfig) (run : ProcRun)
    (h : substrB "input(" code = true) :
    (execute_subprocess run code cfg).1.success = true ∧
    (execute_subprocess run code cfg).1.method_used = "subprocess_skip" ∧
    (execute_subprocess run code cfg).1.output = interactiveSkipMsg ∧
    (execute_subprocess run code cfg).2 = false := by
  unfold execute_subprocess
  rw [h]
  exact ⟨rfl, rfl, rfl, rfl⟩

/-- C5 witness: the amended theorem evaluated on the artifact input(). -/
theorem input_skip_witness :
    (execute_subprocess (ProcRun.completed 0 "" "" 0) "input()" sandboxDefault).1.success
      = true ∧
    (execute_subprocess (ProcRun.completed 0 "" "" 0) "input()" sandboxDefault).2 = false := by
  have h := input_skip "input()" sandboxDefault (ProcRun.completed 0 "" "" 0) (by decide)
  exact ⟨h.1, h.2.2.2⟩

/-! ## C6: backends are total and represent all failure modes -/

/-- C6: every backend returns an ExecutionResult for every input and oracle
outcome (the embedding is a total function), and each modelled failure mode —
a raised exception in restricted execution (parse errors included, since exec
raises SyntaxError), a timeout, a non-zero child exit (runtime failure or
resource exhaustion) and an unavailable docker runtime — is represented
inside the returned result as success = false with a populated error. -/
theorem backends_never_throw (code : String) (cfg : SandboxConfig) (sub : ProcRun)
    (n m po : String) (t : ℚ) (rc : Int) (out err : String) (el : ℚ) (dr : ProcRun) :
    (firstDangerous code = none → needs_subprocess code = false →
      (execute_restricted (PyRun.raises n m po t) sub code cfg).1.success = false ∧
      (execute_restricted (PyRun.raises n m po t) sub code cfg).1.error =
        some (n ++ ": " ++ m)) ∧
    (substrB "input(" code = false → mainloop_skip code = false →
      (execute_subprocess ProcRun.timedOut code cfg).1.success = false ∧
      (execute_subprocess ProcRun.timedOut code cfg).1.error =
        some (timeoutMsg cfg.timeout)) ∧
    (substrB "input(" code = false → mainloop_skip code = false → rc ≠ 0 →
      (execute_subprocess (ProcRun.completed rc out err el) code cfg).1.success = false ∧
      (execute_subprocess (ProcRun.completed rc out err el) code cfg).1.error =
        some (strTake err cfg.max_output_size)) ∧
    ((execute_docker false dr code cfg).1.success = false ∧
      (execute_docker false dr code cfg).1.error ≠ none) ∧
    ((execute_docker true ProcRun.timedOut code cfg).1.success = false ∧
      (execute_docker true ProcRun.timedOut code cfg).1.error =
        some (timeoutMsg cfg.timeout)) := by
  refine ⟨?_, ?_, ?_, ?_, ?_⟩
  · intro hd hn
    unfold execute_restricted
    rw [hd, hn]
    exact ⟨rfl, rfl⟩
  · intro h1 h2
    unfold execute_subprocess
    rw [h1, h2]
    exact ⟨rfl, rfl⟩
  · intro h1 h2 hrc
    unfold execute_subprocess
    rw [h1, h2]
    have hb : (rc == 0) = false := by simp [hrc]
    simp only [hb]
    exact ⟨rfl, rfl⟩
  · exact ⟨rfl, fun h => Option.noConfusion h⟩
  · exact ⟨rfl, rfl⟩

/-- C6 witness: representative failure modes evaluated concretely. -/
theorem backends_never_throw_witness :
    (execute_restricted (PyRun.raises "ValueError" "boom" "" 1)
        (ProcRun.completed 0 "" "" 0) "print(1)" sandboxDefault).1.success = false ∧
    (execute_subprocess (ProcRun.completed 1 "" "trace" 1) "print(1)"
        sandboxDefault).1.success = false ∧
    (execute_docker true ProcRun.timedOut "print(1)" sandboxDefault).1.success = false := by
  have h := backends_never_throw "print(1)" sandboxDefault (ProcRun.completed 0 "" "" 0)
    "ValueError" "boom" "" 1 1 "" "trace" 1 (ProcRun.completed 0 "" "" 0)
  exact ⟨(h.1 (by decide) (by decide)).1,
         (h.2.2.1 (by decide) (by decide) (by decide)).1,
         h.2.2.2.2.1⟩

/-! ## C9: output truncation -/

/-- C9 counterexample: with max_output_size = 10, the input() skip path of
the subprocess backend returns its fixed 79-character notice untruncated, so
the output is not bounded by max_output_size on every return path. -/
theorem truncation_counterexample :
    sandboxSmall.max_output_size = 10 ∧
    (execute_subprocess (ProcRun.completed 0 "" "" 0) "input()"
      sandboxSmall).1.output.length = 79 := by
  decide

/-- Subprocess part of the truncation bound, shared by the C9 proof. -/
theorem execute_subprocess_output_le (code : String) (cfg : SandboxConfig) (sub : ProcRun)
    (h1 : interactiveSkipMsg.length ≤ cfg.max_output_size)
    (h2 : guiSkipMsg.length ≤ cfg.max_output_size) :
    (execute_subprocess sub code cfg).1.output.length ≤ cfg.max_output_size := by
  unfold execute_subprocess
  split
  · exact h1
  · split
    · exact h2
    · split
      · exact Nat.zero_le _
      · split
        · exact strTake_length_le _ _
        · exact strTake_length_le _ _

/-- C9 amended: the output of every backend is bounded by max_output_size on
every return path whenever max_output_size is at least the length of the two
fixed skip notices (79 and 65 characters) — in particular for every
configuration produced by execute_code_safely, which always uses the default
max_output_size of 10000.  The skip paths themselves return fixed notices
without truncation, which is what the counterexample exhibits. -/
theorem output_truncated (code : String) (cfg : SandboxConfig) (py : PyRun)
    (sub : ProcRun) (da : Bool) (dr : ProcRun)
    (h1 : interactiveSkipMsg.length ≤ cfg.max_output_size)
    (h2 : guiSkipMsg.length ≤ cfg.max_output_size) :
    (execute_restricted py sub code cfg).1.output.length ≤ cfg.max_output_size ∧
    (execute_subprocess sub code cfg).1.output.length ≤ cfg.max_output_size ∧
    (execute_docker da dr code cfg).1.output.length ≤ cfg.max_output_size := by
  refine ⟨?_, execute_subprocess_output_le code cfg sub h1 h2, ?_⟩
  · unfold execute_restricted
    split
    · exact Nat.zero_le _
    · split
      · exact execute_subprocess_output_le code cfg sub h1 h2
      · split
        · exact strTake_length_le _ _
        · exact strTake_length_le _ _
  · unfold execute_docker
    split
    · exact Nat.zero_le _
    · split
      · exact Nat.zero_le _
      · split
        · exact strTake_length_le _ _
        · exact strTake_length_le _ _

/-- C9 witness: the amended theorem evaluated at the default configuration. -/
theorem output_truncated_witness :
    (execute_restricted (PyRun.ok "hello" 1) (ProcRun.completed 0 "" "" 0) "print(1)"
      sandboxDefault).1.output.length ≤ sandboxDefault.max_output_size ∧
    (execute_subprocess (ProcRun.completed 0 "" "" 0) "input()"
      sandboxDefault).1.output.length ≤ sandboxDefault.max_output_size := by
  have h := output_truncated "print(1)" sandboxDefault (PyRun.ok "hello" 1)
    (ProcRun.completed 0 "" "" 0) true (ProcRun.completed 0 "" "" 0)
    (by decide) (by decide)
  have h2 := output_truncated "input()" sandboxDefault (PyRun.ok "hello" 1)
    (ProcRun.completed 0 "" "" 0) true (ProcRun.completed 0 "" "" 0)
    (by decide) (by decide)
  exact ⟨h.1, h2.2.1⟩

/-! ## C7: exponential backoff shape -/

/-- C7: with jitter disabled, calculate_delay 0 equals base_delay,
calculate_delay is non-decreasing in the attempt index, and it never exceeds
max_delay, for every configuration with base_delay at least 0, max_delay at
least base_delay and exponential_base at least 1. -/
theorem calculate_delay_props (cfg : RetryConfig) (u : ℚ)
    (hj : cfg.jitter = false) (hb : 0 ≤ cfg.base_delay)
    (hbm : cfg.base_delay ≤ cfg.max_delay) (he : 1 ≤ cfg.exponential_base) :
    calculate_delay 0 cfg u = cfg.base_delay ∧
    (∀ n, calculate_delay n cfg u ≤ calculate_delay (n + 1) cfg u) ∧
    ∀ n, calculate_delay n cfg u ≤ cfg.max_delay := by
  have hexp : ∀ n : Nat,
      cfg.base_delay * cfg.exponential_base ^ n ≤
        cfg.base_delay * cfg.exponential_base ^ (n + 1) :=
    fun n => mul_le_mul_of_nonneg_left (pow_le_pow_right₀ he (Nat.le_succ n)) hb
  refine ⟨?_, ?_, ?_⟩
  · simp only [calculate_delay, hj, Bool.false_eq_true, if_false, pow_zero, mul_one]
    rw [min_eq_left hbm, max_eq_right hb]
  · intro n
    simp only [calculate_delay, hj, Bool.false_eq_true, if_false]
    exact max_le_max le_rfl (min_le_min (hexp n) le_rfl)
  · intro n
    simp only [calculate_delay, hj, Bool.false_eq_true, if_false]
    exact max_le (le_trans hb hbm) (min_le_right _ _)

/-- C7 witness: the backoff properties evaluated at the default
configuration with jitter disabled. -/
theorem calculate_delay_props_witness :
    calculate_delay 0 retryNoJitter 0 = retryNoJitter.base_delay ∧
    calculate_delay 3 retryNoJitter 0 ≤ calculate_delay 4 retryNoJitter 0 ∧
    calculate_delay 9 retryNoJitter 0 ≤ retryNoJitter.max_delay := by
  have h := calculate_delay_props retryNoJitter 0 rfl (by decide) (by decide) (by decide)
  exact ⟨h.1, h.2.1 3, h.2.2 9⟩

/-! ## C8: retry engine propagation -/

/-- All-attempts-fail run of the retry loop: if every attempt before the last
raises a retryable exception and the final attempt raises e, the loop
propagates e itself after exactly max_retries + 1 operation calls. -/
theorem retryAux_exhaustion {T : Type} (f : Nat → Except Exc T) (cfg : RetryConfig)
    (mr : Nat) (e : Exc) :
    ∀ fuel attempt, attempt + fuel = mr + 1 → attempt ≤ mr →
    (∀ i, attempt ≤ i → i < mr → ∃ ei, f i = Except.error ei ∧ should_retry ei cfg = true) →
    f mr = Except.error e →
    retryAux f cfg mr attempt fuel = (Except.error e, mr + 1) := by
  intro fuel
  induction fuel with
  | zero =>
    intro attempt hsum hle _ _
    omega
  | succ fuel' ih =>
    intro attempt hsum hle hretry hlast
    rcases Nat.lt_or_ge attempt mr with hlt | hge
    · obtain ⟨ei, hei, hsr⟩ := hretry attempt le_rfl hlt
      simp only [retryAux, hei]
      rw [if_neg (by omega), hsr]
      simp only [Bool.not_true, Bool.false_eq_true, if_false]
      exact ih (attempt + 1) (by omega) (by omega)
        (fun i hi1 hi2 => hretry i (by omega) hi2) hlast
    · have heq : attempt = mr := by omega
      subst heq
      simp only [retryAux, hlast]
      rw [if_pos le_rfl]

/-- C8: a non-retryable exception propagates on its first occurrence after a
single operation call, and when every attempt fails the exception of the
final attempt propagates unchanged; both for the generic retry_with_backoff
wrapper under any policy and for retry_llm_call under its LLM policy. -/
theorem retry_propagation {T : Type} (f : Nat → Except Exc T) (cfg : RetryConfig)
    (mr : Nat) :
    (∀ e, f 0 = Except.error e → should_retry e cfg = false →
      retry_with_backoff f cfg mr = (Except.error e, 1)) ∧
    (∀ e, (∀ i, i < mr → ∃ ei, f i = Except.error ei ∧ should_retry ei cfg = true) →
      f mr = Except.error e → retry_with_backoff f cfg mr = (Except.error e, mr + 1)) ∧
    (∀ e, f 0 = Except.error e → should_retry e (llmRetryConfig mr) = false →
      retry_llm_call f mr = (Except.error e, 1)) ∧
    (∀ e, (∀ i, i < mr →
        ∃ ei, f i = Except.error ei ∧ should_retry ei (llmRetryConfig mr) = true) →
      f mr = Except.error e → retry_llm_call f mr = (Except.error e, mr + 1)) := by
  have first : ∀ (cfg' : RetryConfig) e, f 0 = Except.error e →
      should_retry e cfg' = false →
      retryAux f cfg' mr 0 (mr + 1) = (Except.error e, 1) := by
    intro cfg' e hf hsr
    simp only [retryAux, hf, hsr]
    split
    · rfl
    · rfl
  have exhaust : ∀ (cfg' : RetryConfig) e,
      (∀ i, i < mr → ∃ ei, f i = Except.error ei ∧ should_retry ei cfg' = true) →
      f mr = Except.error e →
      retryAux f cfg' mr 0 (mr + 1) = (Except.error e, mr + 1) := by
    intro cfg' e hretry hlast
    exact retryAux_exhaustion f cfg' mr e (mr + 1) 0 (by omega) (Nat.zero_le mr)
      (fun i _ hi => hretry i hi) hlast
  exact ⟨fun e hf hsr => first cfg e hf hsr,
         fun e hr hl => exhaust cfg e hr hl,
         fun e hf hsr => first (llmRetryConfig mr) e hf hsr,
         fun e hr hl => exhaust (llmRetryConfig mr) e hr hl⟩

/-- C8 witness: immediate propagation of a non-retryable exception and final
propagation after exhaustion, evaluated concretely. -/
theorem retry_propagation_witness :
    retry_with_backoff (fun _ => (Except.error excFatal : Except Exc Nat))
      retryDefault 3 = (Except.error excFatal, 1) ∧
    retry_with_backoff (fun _ => (Except.error excTransient : Except Exc Nat))
      retryDefault 3 = (Except.error excTransient, 4) := by
  have h1 := (retry_propagation (fun _ => (Except.error excFatal : Except Exc Nat))
    retryDefault 3).1 excFatal rfl (by decide)
  have h2 := (retry_propagation (fun _ => (Except.error excTransient : Except Exc Nat))
    retryDefault 3).2.1 excTransient
    (fun i _ => ⟨excTransient, rfl, by decide⟩) rfl
  exact ⟨h1, h2⟩

/-! ## C10: QA trusts sandbox execution results -/

/-- The critique built for a failed attempt is never empty: either it is the
result output, which then contains the six-character marker Error:, or it is
the fixed failure sentence with the output appended. -/
theorem get_critique_ne_empty (d : CodeDict) : get_critique d ≠ "" := by
  unfold get_critique
  split
  next hcond =>
    intro hempty
    rw [hempty] at hcond
    exact absurd hcond (by decide)
  next =>
    exact append_ne_empty_left _ _ (by decide)

/-- C10: for every input dict whose status is passed or failed,
evaluate_code returns that same status with the result entry of the dict
(empty-string default) and never runs the LLM static-analysis fallback; the
critique is empty exactly when the status is passed. -/
theorem evaluate_code_trusts_sandbox (llm : String → QAEvalResult) (d : CodeDict)
    (st : String) (hst : d.status = some st) (h : st = "passed" ∨ st = "failed") :
    (evaluate_code llm (CodeResult.dict d)).2 = false ∧
    (evaluate_code llm (CodeResult.dict d)).1.status = st ∧
    (evaluate_code llm (CodeResult.dict d)).1.result = some ((d.result).getD "") ∧
    ((evaluate_code llm (CodeResult.dict d)).1.critique = "" ↔ st = "passed") := by
  simp only [evaluate_code, hst]
  rw [if_pos h]
  refine ⟨rfl, rfl, rfl, ?_⟩
  rcases h with hp | hf
  · subst hp
    rw [if_neg (by decide)]
    simp
  · subst hf
    rw [if_pos rfl]
    constructor
    · intro hc
      exact absurd hc (get_critique_ne_empty d)
    · intro hc
      exact absurd hc (by decide)

/-- C10 witness: a passed dict and a failed dict evaluated concretely. -/
theorem evaluate_code_trusts_sandbox_witness :
    (evaluate_code llmStub (CodeResult.dict passedDict)).1.status = "passed" ∧
    (evaluate_code llmStub (CodeResult.dict failedDict)).1.critique ≠ "" := by
  have hp := evaluate_code_trusts_sandbox llmStub passedDict "passed" rfl (Or.inl rfl)
  have hf := evaluate_code_trusts_sandbox llmStub failedDict "failed" rfl (Or.inr rfl)
  refine ⟨hp.2.1, ?_⟩
  intro hc
  have hpf := hf.2.2.2.1 hc
  exact absurd hpf (by decide)

/-! ## Loop invariants of develop_with_retry -/

/-- Once best_code is set, a run in which no later attempt passes keeps it:
the exhausted return carries exactly the stored best attempt. -/
theorem devAux_keep_best (dev : Nat → String) (qa : Nat → QAResult)
    (critic : Nat → String) (mr : Nat) (c : String) (q : QAResult) :
    ∀ fuel attempt critique cc,
    (∀ j, j < fuel → (qa (attempt + j)).status ≠ "passed") →
    (developAux dev qa critic mr (some (c, q)) critique cc attempt fuel).code = some c ∧
    (developAux dev qa critic mr (some (c, q)) critique cc attempt fuel).qa_result = some q ∧
    (developAux dev qa critic mr (some (c, q)) critique cc attempt fuel).passed = false ∧
    (developAux dev qa critic mr (some (c, q)) critique cc attempt fuel).attempts = mr := by
  intro fuel
  induction fuel with
  | zero =>
    intro attempt critique cc _
    exact ⟨rfl, rfl, rfl, rfl⟩
  | succ fuel' ih =>
    intro attempt critique cc h
    have hnp : ((qa attempt).status == "passed") = false := by
      rw [beq_eq_false_iff_ne]
      have h0 := h 0 (Nat.succ_pos fuel')
      simpa using h0
    have hshift : ∀ j, j < fuel' → (qa (attempt + 1 + j)).status ≠ "passed" := by
      intro j hj
      have e : attempt + 1 + j = attempt + (j + 1) := by omega
      rw [e]
      exact h (j + 1) (by omega)
    simp only [developAux, hnp, Bool.false_eq_true, if_false, Option.isNone_some,
      Bool.or_false, Bool.false_eq_true]
    split
    · exact ih (attempt + 1) (critic attempt) (cc + 1) hshift
    · exact ih (attempt + 1) critique cc hshift

/-- A run starting with no best attempt in which no attempt passes returns
the first attempt as best. -/
theorem devAux_all_fail (dev : Nat → String) (qa : Nat → QAResult)
    (critic : Nat → String) (mr : Nat) :
    ∀ fuel attempt critique cc, 0 < fuel →
    (∀ j, j < fuel → (qa (attempt + j)).status ≠ "passed") →
    (developAux dev qa critic mr none critique cc attempt fuel).code = some (dev attempt) ∧
    (developAux dev qa critic mr none critique cc attempt fuel).qa_result =
      some (qa attempt) ∧
    (developAux dev qa critic mr none critique cc attempt fuel).passed = false ∧
    (developAux dev qa critic mr none critique cc attempt fuel).attempts = mr := by
  intro fuel attempt critique cc hpos h
  cases fuel with
  | zero => omega
  | succ fuel' =>
    have hnp : ((qa attempt).status == "passed") = false := by
      rw [beq_eq_false_iff_ne]
      have h0 := h 0 (Nat.succ_pos fuel')
      simpa using h0
    have hshift : ∀ j, j < fuel' → (qa (attempt + 1 + j)).status ≠ "passed" := by
      intro j hj
      have e : attempt + 1 + j = attempt + (j + 1) := by omega
      rw [e]
      exact h (j + 1) (by omega)
    simp only [developAux, hnp, Bool.false_eq_true, if_false, Option.isNone_none,
      Bool.true_or, if_true]
    split
    · exact devAux_keep_best dev qa critic mr (dev attempt) (qa attempt) fuel'
        (attempt + 1) (critic attempt) (cc + 1) hshift
    · exact devAux_keep_best dev qa critic mr (dev attempt) (qa attempt) fuel'
        (attempt + 1) critique cc hshift

/-- The loop returns at the first passing attempt with exactly that attempt
recorded, an empty critique, one developer call per attempt up to it and one
critic call per failed attempt before it. -/
theorem devAux_first_pass (dev : Nat → String) (qa : Nat → QAResult)
    (critic : Nat → String) (mr : Nat) :
    ∀ fuel attempt (best : Option (String × QAResult)) critique cc i, i < fuel →
    (∀ j, j < i → attempt + j < mr - 1) →
    (qa (attempt + i)).status = "passed" →
    (∀ j, j < i → (qa (attempt + j)).status ≠ "passed") →
    developAux dev qa critic mr best critique cc attempt fuel =
      { code := some (dev (attempt + i))
        qa_result := some (qa (attempt + i))
        critique := ""
        attempts := attempt + i + 1
        passed := true
        devCalls := attempt + i + 1
        criticCalls := cc + i } := by
  intro fuel
  induction fuel with
  | zero =>
    intro attempt best critique cc i hi
    omega
  | succ fuel' ih =>
    intro attempt best critique cc i hi hcrit hpass hnp
    cases i with
    | zero =>
      have hp : ((qa attempt).status == "passed") = true := by
        rw [beq_iff_eq]
        simpa using hpass
      simp only [developAux, hp, if_true]
      simp
    | succ i' =>
      have hnp0 : ((qa attempt).status == "passed") = false := by
        rw [beq_eq_false_iff_ne]
        have h0 := hnp 0 (Nat.succ_pos i')
        simpa using h0
      have h0 : attempt < mr - 1 := by
        have hc := hcrit 0 (Nat.succ_pos i')
        simpa using hc
      have h1 : i' < fuel' := by omega
      have h2 : ∀ j, j < i' → attempt + 1 + j < mr - 1 := by
        intro j hj
        have hc := hcrit (j + 1) (by omega)
        omega
      have e : attempt + 1 + i' = attempt + (i' + 1) := by omega
      have h3 : (qa (attempt + 1 + i')).status = "passed" := by
        rw [e]
        exact hpass
      have h4 : ∀ j, j < i' → (qa (attempt + 1 + j)).status ≠ "passed" := by
        intro j hj
        have e3 : attempt + 1 + j = attempt + (j + 1) := by omega
        rw [e3]
        exact hnp (j + 1) (by omega)
      have e2 : cc + 1 + i' = cc + (i' + 1) := by omega
      simp only [developAux, hnp0, Bool.false_eq_true, if_false]
      rw [if_pos h0]
      rw [ih (attempt + 1) _ (critic attempt) (cc + 1) i' h1 h2 h3 h4]
      rw [e, e2]

/-- The loop makes at most one developer call per unit of remaining budget. -/
theorem devAux_devCalls_le (dev : Nat → String) (qa : Nat → QAResult)
    (critic : Nat → String) (mr : Nat) :
    ∀ fuel attempt best critique cc,
    (developAux dev qa critic mr best critique cc attempt fuel).devCalls ≤ attempt + fuel := by
  intro fuel
  induction fuel with
  | zero =>
    intro attempt best critique cc
    exact Nat.le_add_right attempt 0
  | succ fuel' ih =>
    intro attempt best critique cc
    simp only [developAux]
    split
    · show attempt + 1 ≤ attempt + (fuel' + 1)
      omega
    · split
      · exact le_trans (ih (attempt + 1) _ _ _) (by omega)
      · exact le_trans (ih (attempt + 1) _ _ _) (by omega)

/-! ## C3: termination and call budget of the task loop -/

/-- C3: for every run with max_retries at least 1, the loop makes at most
max_retries developer calls; and if attempt i (0-based) is the first whose
QA status is passed, the loop returns immediately at that attempt with
passed = true, attempts = i + 1 (the 1-based index), an empty critique,
exactly i + 1 developer calls and exactly i critic calls — no further
generator or reviewer call after the pass. -/
theorem develop_with_retry_termination (dev : Nat → String) (qa : Nat → QAResult)
    (critic : Nat → String) (mr : Nat) (hmr : 1 ≤ mr) :
    (develop_with_retry dev qa critic mr).devCalls ≤ mr ∧
    ∀ i, i < mr → (qa i).status = "passed" →
      (∀ j, j < i → (qa j).status ≠ "passed") →
      develop_with_retry dev qa critic mr =
        { code := some (dev i)
          qa_result := some (qa i)
          critique := ""
          attempts := i + 1
          passed := true
          devCalls := i + 1
          criticCalls := i } := by
  constructor
  · have h := devAux_devCalls_le dev qa critic mr mr 0 none "" 0
    simpa using h
  · intro i hi hp hfirst
    unfold develop_with_retry
    have hcrit : ∀ j, j < i → 0 + j < mr - 1 := by
      intro j hj
      omega
    have hp0 : (qa (0 + i)).status = "passed" := by
      simpa using hp
    have hfirst0 : ∀ j, j < i → (qa (0 + j)).status ≠ "passed" := by
      intro j hj
      simpa using hfirst j hj
    rw [devAux_first_pass dev qa critic mr mr 0 none "" 0 i hi hcrit hp0 hfirst0]
    simp

/-- C3 witness: a run that passes on its first attempt, evaluated. -/
theorem develop_with_retry_termination_witness :
    develop_with_retry wDev wQaPass wCritic 2 =
      { code := some "A"
        qa_result := some { status := "passed", result := "ok" }
        critique := ""
        attempts := 1
        passed := true
        devCalls := 1
        criticCalls := 0 } := by
  have h := (develop_with_retry_termination wDev wQaPass wCritic 2 (by decide)).2 0
    (by decide) rfl (fun j hj => absurd hj (Nat.not_lt_zero j))
  rw [h]
  decide

/-! ## C2: the best attempt returned by the loop -/

/-- C2 counterexample: two failing attempts with distinct codes; the loop
returns the first attempt as best, not the last, refuting the claim that the
best attempt of an all-fail run is the last one. -/
theorem best_attempt_counterexample :
    (develop_with_retry wDev wQaFail wCritic 2).passed = false ∧
    (develop_with_retry wDev wQaFail wCritic 2).code = some "A" ∧
    wDev 1 = "B" := by
  decide

/-- C2 amended: in a run where no attempt passes, develop_with_retry returns
the first attempt (its code and QA result) as best, not the last; if some
attempt passes, it returns the first passing attempt. -/
theorem develop_with_retry_best (dev : Nat → String) (qa : Nat → QAResult)
    (critic : Nat → String) (mr : Nat) (hmr : 1 ≤ mr) :
    ((∀ j, j < mr → (qa j).status ≠ "passed") →
      (develop_with_retry dev qa critic mr).passed = false ∧
      (develop_with_retry dev qa critic mr).code = some (dev 0) ∧
      (develop_with_retry dev qa critic mr).qa_result = some (qa 0)) ∧
    ∀ i, i < mr → (qa i).status = "passed" →
      (∀ j, j < i → (qa j).status ≠ "passed") →
      (develop_with_retry dev qa critic mr).passed = true ∧
      (develop_with_retry dev qa critic mr).code = some (dev i) ∧
      (develop_with_retry dev qa critic mr).qa_result = some (qa i) := by
  constructor
  · intro hall
    unfold develop_with_retry
    have h := devAux_all_fail dev qa critic mr mr 0 "" 0 (by omega)
      (fun j hj => by simpa using hall j (by simpa using hj))
    exact ⟨h.2.2.1, h.1, h.2.1⟩
  · intro i hi hp hfirst
    unfold develop_with_retry
    have hcrit : ∀ j, j < i → 0 + j < mr - 1 := by
      intro j hj
      omega
    have hp0 : (qa (0 + i)).status = "passed" := by
      simpa using hp
    have hfirst0 : ∀ j, j < i → (qa (0 + j)).status ≠ "passed" := by
      intro j hj
      simpa using hfirst j hj
    rw [devAux_first_pass dev qa critic mr mr 0 none "" 0 i hi hcrit hp0 hfirst0]
    refine ⟨rfl, ?_, ?_⟩ <;> simp

/-- C2 witness: the amended theorem evaluated on the all-fail run. -/
theorem develop_with_retry_best_witness :
    (develop_with_retry wDev wQaFail wCritic 2).code = some (wDev 0) ∧
    (develop_with_retry wDev wQaFail wCritic 2).passed = false := by
  have hfail : ∀ j, j < 2 → (wQaFail j).status ≠ "passed" := by
    intro j hj hcon
    simp [wQaFail] at hcon
  have h := (develop_with_retry_best wDev wQaFail wCritic 2 (by decide)).1 hfail
  exact ⟨h.2.1, h.1⟩

end MultiAgentPlanner
